import Mathlib

/-!
Shallow embedding of the job submission / status polling lifecycle of the
unreal-art/art web application, together with proofs of the specification's
claims about it.

Embedded source files:
* src/stores/generationStore.ts        (in-flight generation store)
* src/app/home/components/videoStatusPoll.tsx   (video status polling)
* src/queries/post/sendJobRequest.ts   (job submission)
* src/hooks/useCreateJob.tsx           (image row-polling loop)
* src/app/home/formattedPhotos.ts      (gallery formatting / media URLs)

JavaScript truthiness on optional strings is modelled by `optTruthy`
(present and non-empty), and the `a || b` idiom on strings by `jsOrStr`.
Randomness (the seed) and network responses are passed in as explicit
parameters; effects (toasts, stopGeneration, navigation, database writes)
are recorded in explicit result structures.
-/

namespace Art

/-- JavaScript truthiness of an optional string: present and non-empty. -/
def optTruthy : Option String → Bool
  | some s => !s.isEmpty
  | none => false

/-- The JavaScript idiom `a || b` on an optional string `a` with default `b`:
falls through to the default when `a` is absent or empty. -/
def jsOrStr (a : Option String) (b : String) : String :=
  match a with
  | some s => if s.isEmpty then b else s
  | none => b

/-! ### Generation store (src/stores/generationStore.ts) -/

/-- The media type of a generation job: the string union 'image' | 'video'. -/
inductive MediaType
  | image
  | video
deriving DecidableEq, Repr

/-- The name of a media type, as interpolated into user-facing messages. -/
def MediaType.name : MediaType → String
  | .image => "image"
  | .video => "video"

/-- The state of the generation store: `{ isActive, mediaType }`. -/
structure GenerationState where
  isActive : Bool
  mediaType : MediaType
deriving DecidableEq, Repr

/-- `defaultInitState` from generationStore.ts. -/
def defaultInitState : GenerationState :=
  { isActive := false, mediaType := .image }

/-- `startGeneration: (mediaType = 'image') => set(() => ({ isActive: true, mediaType }))`.
The optional argument defaults to 'image'. -/
def startGeneration (mt : Option MediaType) (s : GenerationState) : GenerationState :=
  { s with isActive := true, mediaType := mt.getD .image }

/-- `stopGeneration: () => set(() => ({ isActive: false }))`; zustand merges the
partial state, so `mediaType` is left unchanged. -/
def stopGeneration (s : GenerationState) : GenerationState :=
  { s with isActive := false }

/-! ### Video status polling (src/app/home/components/videoStatusPoll.tsx) -/

/-- The `status` field of a job-status response body. -/
inductive VideoJobStatus
  | queued
  | processing
  | completed
  | failed
deriving DecidableEq, Repr

/-- The `video` field of a job-status response body. -/
structure VideoFile where
  s3 : String
  url : String
deriving DecidableEq, Repr

/-- A parsed job-status response body (the `VideoStatus` TypeScript type). -/
structure VideoStatus where
  jobId : String
  status : VideoJobStatus
  video : Option VideoFile
  error : Option String
deriving DecidableEq, Repr

/-- One HTTP response observed by the polling loop: either a non-2xx response
(`response.ok` false) with its status code and status text, or a 2xx response
with a parsed body. -/
inductive PollResponse
  | failure (httpStatus : Nat) (statusText : String)
  | success (data : VideoStatus)
deriving DecidableEq, Repr

/-- Whether a response is an error (non-2xx) response. -/
def PollResponse.isError : PollResponse → Bool
  | .failure _ _ => true
  | .success _ => false

/-- One entry of the `video_data` column written by `updatePostWithVideo`. -/
structure VideoDataEntry where
  hash : String
  url : String
  s3 : String
deriving DecidableEq, Repr

/-- The state of the `VideoStatusPoll` component together with the observable
effects of the polling loop: the post row's `video_data` column and the
arguments of the `onVideoReady` calls made so far, in order. -/
structure PollState where
  status : Option VideoStatus
  isPolling : Bool
  error : Option String
  retryCount : Nat
  postVideoData : Option (List VideoDataEntry)
  readyCalls : List String
deriving DecidableEq, Repr

/-- The initial component state: `status` null, `isPolling` true, `error` null,
`retryCount` 0, and no effects performed yet. -/
def initPollState : PollState :=
  { status := none, isPolling := true, error := none, retryCount := 0,
    postVideoData := none, readyCalls := [] }

/-- `updatePostWithVideo`: writes `video_data = [{ hash: videoUrl, url: videoUrl,
s3: s3Url }]` onto the post row identified by `postId`. -/
def updatePostWithVideo (videoUrl s3Url : String) (s : PollState) : PollState :=
  { s with postVideoData := some [{ hash := videoUrl, url := videoUrl, s3 := s3Url }] }

/-- One execution of `pollVideoStatus` on a response. A non-ok response with a
404 status and `retryCount < 10` retries, any other non-ok response with
`retryCount < 5` retries, and otherwise an error is thrown; the surrounding
catch block sets a terminal error only when `retryCount >= 10` and retries
otherwise. An ok response stores the body, resets `retryCount` to 0, and on
`completed` with a truthy video URL updates the post and fires `onVideoReady`
before stopping, on `failed` stores an error and stops, and otherwise keeps
polling. -/
def pollVideoStatus (resp : PollResponse) (s : PollState) : PollState :=
  match resp with
  | .failure httpStatus statusText =>
      if httpStatus = 404 ∧ s.retryCount < 10 then
        { s with retryCount := s.retryCount + 1 }
      else if s.retryCount < 5 then
        { s with retryCount := s.retryCount + 1 }
      else
        -- the `throw new Error(...)` is caught by the surrounding catch block
        if s.retryCount ≥ 10 then
          { s with
              error := some ("Status check failed after " ++ toString s.retryCount
                ++ " retries: " ++ statusText),
              isPolling := false }
        else
          { s with retryCount := s.retryCount + 1 }
  | .success data =>
      let s1 := { s with status := some data, retryCount := 0 }
      match data.status, data.video with
      | .completed, some v =>
          if !v.url.isEmpty then
            let s2 := updatePostWithVideo v.url v.s3 s1
            { s2 with readyCalls := s2.readyCalls ++ [v.url], isPolling := false }
          else s1
      | .completed, none => s1
      | .failed, _ =>
          { s1 with error := some (jsOrStr data.error "Video generation failed"),
                    isPolling := false }
      | _, _ => s1

/-- One interval tick: the effect guard `if (!jobId || !isPolling) return`
means no status request is issued once polling has stopped. Returns the new
state together with whether a status request was issued. -/
def pollTick (jobId : String) (resp : PollResponse) (s : PollState) : PollState × Bool :=
  if jobId.isEmpty ∨ s.isPolling = false then (s, false)
  else (pollVideoStatus resp s, true)

/-- Runs the polling loop over a sequence of responses. -/
def pollRun (jobId : String) (resps : List PollResponse) (s : PollState) : PollState :=
  resps.foldl (fun st r => (pollTick jobId r st).1) s

/-- The number of status requests issued while running the polling loop over a
sequence of responses. -/
def pollRequestCount (jobId : String) (resps : List PollResponse) (s : PollState) : Nat :=
  (resps.foldl
    (fun (acc : PollState × Nat) r =>
      let step := pollTick jobId r acc.1
      (step.1, acc.2 + (if step.2 then 1 else 0)))
    (s, 0)).2

/-! ### Job submission (src/queries/post/sendJobRequest.ts) -/

/-- The `wallet` field of an extended user. -/
structure Wallet where
  privateKey : Option String
deriving DecidableEq, Repr

/-- The fields of `ExtendedUser` read by `sendJobRequest`. A missing user id
is modelled as the empty string (JavaScript falsiness of `user.id`). -/
structure ExtendedUser where
  id : String
  creditBalance : Int
  wallet : Option Wallet
deriving DecidableEq, Repr

/-- JavaScript `String.prototype.startsWith`, embedded structurally over the
character lists so that it evaluates inside the kernel. -/
def strStartsWith (s pre : String) : Bool :=
  pre.data.isPrefixOf s.data

/-- JavaScript `String.prototype.trim`: strips leading and trailing
whitespace. Embedded structurally over the character list so that it
evaluates inside the kernel. -/
def jsTrim (s : String) : String :=
  String.mk (((s.data.dropWhile Char.isWhitespace).reverse.dropWhile
    Char.isWhitespace).reverse)

/-- The `inputs` object of a generation request payload. -/
structure JobInputs where
  Prompt : String
  Seed : Int
  n : Int
deriving DecidableEq, Repr

/-- A generation request payload (`ImageGenerationRequest` /
`VideoGenerationRequest`, which have identical shape). -/
structure RequestPayload where
  inputs : JobInputs
  author : String
  category : String
deriving DecidableEq, Repr

/-- The request payload built by `sendJobRequest` once validation has passed:
trimmed prompt, the drawn seed, `n = 1` for videos and `imageCount` clamped to
1..10 for images, the user id as author, and the fixed category. -/
def buildRequestPayload (prompt : String) (u : ExtendedUser) (seed : Int)
    (imageCount : Int) (mediaType : MediaType) : RequestPayload :=
  { inputs :=
      { Prompt := jsTrim prompt,
        Seed := seed,
        n := if mediaType = .video then 1 else min (max imageCount 1) 10 },
    author := u.id,
    category := "GENERATION" }

/-- The observable outcome of the synchronous phase of `sendJobRequest`:
whether a network request is issued, whether `stopGeneration` was called,
the toast shown on rejection, and the payload and endpoint of the request
when one is issued. -/
structure SubmitStart where
  networkCalled : Bool
  stopped : Bool
  toast : Option String
  payload : Option RequestPayload
  endpoint : Option String
deriving DecidableEq, Repr

/-- The synchronous phase of `sendJobRequest`: the four early-return
validations in source order (`!user`, `!user.id`, empty or whitespace-only
prompt, prompt longer than 1000 characters), each of which shows a toast and
calls `stopGeneration` without any network request; on acceptance the payload
is built and sent to the media-type-specific endpoint. The random seed is
passed in explicitly. -/
def sendJobRequestStart (prompt : String) (user : Option ExtendedUser)
    (seed : Int) (imageCount : Int) (mediaType : MediaType) : SubmitStart :=
  match user with
  | none =>
      { networkCalled := false, stopped := true,
        toast := some ("Please log in to generate " ++ mediaType.name ++ "s"),
        payload := none, endpoint := none }
  | some u =>
      if u.id.isEmpty then
        { networkCalled := false, stopped := true,
          toast := some "User authentication error",
          payload := none, endpoint := none }
      else if prompt.isEmpty ∨ (jsTrim prompt).length = 0 then
        { networkCalled := false, stopped := true,
          toast := some "Please enter a prompt",
          payload := none, endpoint := none }
      else if prompt.length > 1000 then
        { networkCalled := false, stopped := true,
          toast := some "Prompt too long (max 1000 characters)",
          payload := none, endpoint := none }
      else
        { networkCalled := true, stopped := false, toast := none,
          payload := some (buildRequestPayload prompt u seed imageCount mediaType),
          endpoint := some (if mediaType = .video then "/api/videos/generations"
                            else "/api/images/generations") }

/-- The error object examined by the catch blocks of `sendJobRequest`:
whether `axios.isAxiosError` holds, the `code`, the response status and
`response.data.message` when a response exists, and the error's own message. -/
structure AxiosErrorInfo where
  isAxiosError : Bool
  code : Option String
  responseStatus : Option Nat
  responseMessage : Option String
  message : String
deriving DecidableEq, Repr

/-- The user-facing message computed by the catch blocks of `sendJobRequest`:
timeout (`ECONNABORTED`), then statuses 401, 400, 500 in order, then the
response message or the error's own message; non-axios errors keep the
initial generic message. -/
def submitFailureMessage (mediaType : MediaType) (e : AxiosErrorInfo) : String :=
  if e.isAxiosError then
    if e.code = some "ECONNABORTED" then "Request timeout - please try again"
    else if e.responseStatus = some 401 then
      "Please log in to generate " ++ mediaType.name ++ "s"
    else if e.responseStatus = some 400 then jsOrStr e.responseMessage "Invalid request"
    else if e.responseStatus = some 500 then "Server error - please try again"
    else jsOrStr e.responseMessage e.message
  else "Failed to start " ++ mediaType.name ++ " generation"

/-- The observable effects of the video-path catch block: `stopGeneration`,
the toast message, and the rethrow of the error to the caller. -/
structure VideoCatchResult where
  stopped : Bool
  toast : String
  rethrown : Bool
deriving DecidableEq, Repr

/-- The video-path catch block of `sendJobRequest`: clears the in-flight flag,
toasts the mapped message, and rethrows. -/
def videoCatchHandler (mediaType : MediaType) (e : AxiosErrorInfo) : VideoCatchResult :=
  { stopped := true, toast := submitFailureMessage mediaType e, rethrown := true }

/-- The `data` object inside a video-generation response body. -/
structure VideoApiData where
  jobId : Option String
  postId : Option Nat
deriving DecidableEq, Repr

/-- A video-generation response body: `{ status, data: { jobId, postId } }`. -/
structure VideoApiBody where
  status : Bool
  data : Option VideoApiData
deriving DecidableEq, Repr

/-- The result of handling a video-generation HTTP response. -/
inductive VideoSubmitResult
  | success (jobId : String) (postId : Option Nat)
  | error (message : String)
deriving DecidableEq, Repr

/-- The video-path success handling of `sendJobRequest`: when
`response.data?.status && response.data?.data?.jobId` is truthy, the jobId and
postId are returned to the caller from the submission response alone (no wait
for generation); otherwise an invalid-response error is thrown. -/
def handleVideoResponse (body : VideoApiBody) : VideoSubmitResult :=
  match body.data with
  | none => .error "Invalid response from video generation API"
  | some d =>
      match d.jobId with
      | none => .error "Invalid response from video generation API"
      | some j =>
          if body.status = true ∧ j.isEmpty = false then .success j d.postId
          else .error "Invalid response from video generation API"

/-! ### Image path success callback and row polling
(src/queries/post/sendJobRequest.ts and src/hooks/useCreateJob.tsx) -/

/-- The `data` object inside an image-generation response body. -/
structure ImageApiData where
  estimated_processing_time : Option String
deriving DecidableEq, Repr

/-- An image-generation response body. -/
structure ImageApiBody where
  status : Bool
  data : Option ImageApiData
deriving DecidableEq, Repr

/-- The observable effects of the image-path success callback. -/
structure ImageSuccessEffects where
  stopped : Bool
  loggedProcessingTime : Option String
deriving DecidableEq, Repr

/-- The image-path `.then` callback of `sendJobRequest`: it only logs the
estimated processing time and in particular never calls `stopGeneration`. -/
def imageSuccessHandler (body : ImageApiBody) : ImageSuccessEffects :=
  { stopped := false,
    loggedProcessingTime :=
      if body.status then
        match body.data with
        | some d => if optTruthy d.estimated_processing_time then
            d.estimated_processing_time else none
        | none => none
      else none }

/-- The observable effects of one tick of the row-polling loop of
`useCreateJob`. -/
structure RowPollEffects where
  stopped : Bool
  invalidatedPosts : Bool
  navigateTo : Option Int
  newLatestPostId : Option Int
deriving DecidableEq, Repr

/-- One tick of the 2-second row-polling interval of `useCreateJob`:
`fetched` is the id of the author's most recent post row when the query
succeeds (`null`/error otherwise). When a row is present and its id differs
from `latestPostId`, the in-flight flag is cleared, the cached post listing is
invalidated, and navigation to the new record occurs; otherwise nothing
happens. -/
def rowPollTick (latestPostId : Option Int) (fetched : Option Int) : RowPollEffects :=
  match fetched with
  | some i =>
      if (some i ≠ latestPostId : Prop) then
        { stopped := true, invalidatedPosts := true,
          navigateTo := some i, newLatestPostId := some i }
      else
        { stopped := false, invalidatedPosts := false,
          navigateTo := none, newLatestPostId := latestPostId }
  | none =>
      { stopped := false, invalidatedPosts := false,
        navigateTo := none, newLatestPostId := latestPostId }

/-! ### Gallery formatting and media URLs (src/app/home/formattedPhotos.ts) -/

/-- One entry of a post's `ipfsImages` array; `hash` and the file names may be
missing or empty. -/
structure IpfsImageEntry where
  hash : Option String
  fileNames : Option (List String)
deriving DecidableEq, Repr

/-- A `video_data` object; the code probes the `hash`, `url`, `src` and
`fileNames` keys, any of which may be absent. -/
structure VideoDataObj where
  hash : Option String
  url : Option String
  src : Option String
  fileNames : Option (List String)
deriving DecidableEq, Repr

/-- The `video_data` column value: either an array of objects or a single
object (`Array.isArray(post.video_data) ? post.video_data[0] : post.video_data`). -/
inductive VideoDataVal
  | arr (entries : List VideoDataObj)
  | obj (entry : VideoDataObj)
deriving DecidableEq, Repr

/-- The first video-data object: the head of the array in the array case,
the object itself otherwise. -/
def VideoDataVal.first : VideoDataVal → Option VideoDataObj
  | .arr l => l.head?
  | .obj o => some o

/-- The fields of a `Post` record read by the gallery formatting code. -/
structure Post where
  id : Nat
  author : String
  prompt : Option String
  media_type : Option String
  ipfsImages : Option (List IpfsImageEntry)
  video_data : Option VideoDataVal
  category : Option String
  cpu : Option Nat
  createdAt : Option String
  device : Option String
  isDraft : Option Bool
  isPinned : Option Bool
  isPrivate : Option Bool
  caption : Option String
  seed : Option Nat
deriving DecidableEq, Repr

/-- One page of posts as returned by the paginated queries. -/
structure Page where
  data : List Post
deriving DecidableEq, Repr

/-- The environment of `getImage`: the app configuration values and the
`isHighQualityImage` predicate, which live outside the embedded sources and
are passed in as parameters. -/
structure MediaEnv where
  isDevelopment : Bool
  lighthouseGateway : String
  cloudflareUrl : String
  fallbackImageSrc : String
  isHighQualityImage : String → Bool

/-- `getImage`: a missing or empty `cidOrUrl` yields the fallback image; a
value not starting with `http` is treated as a Lighthouse CID and resolved
through the gateway (with resize options for high-quality files), and any
other value resolves to the Cloudflare URL for the author and file name. The
development and production branches of the source compute the same URLs. -/
def getImage (env : MediaEnv) (cidOrUrl : Option String)
    (fileName author : String) : String :=
  match cidOrUrl with
  | none => env.fallbackImageSrc
  | some c =>
      if c.isEmpty then env.fallbackImageSrc
      else
        let isLighthouseCID := !strStartsWith c "http"
        let imageOptions :=
          if isLighthouseCID && env.isHighQualityImage fileName then "?h=300&w=300"
          else ""
        if env.isDevelopment then
          if isLighthouseCID then
            env.lighthouseGateway ++ c ++ "/" ++ fileName ++ imageOptions
          else env.cloudflareUrl ++ "/" ++ author ++ "/" ++ fileName
        else
          if isLighthouseCID then
            env.lighthouseGateway ++ c ++ "/" ++ fileName ++ imageOptions
          else env.cloudflareUrl ++ "/" ++ author ++ "/" ++ fileName

/-- The `videoData.url || videoData.src || videoData.hash || ""` fallback
chain of `getMediaUrl`. -/
def videoDataFallbackUrl (vd : VideoDataObj) : String :=
  jsOrStr vd.url (jsOrStr vd.src (jsOrStr vd.hash ""))

/-- `getMediaUrl`: for a VIDEO post with video data, the first video-data
object's `hash` is returned directly when it is already a full URL, resolved
via `getImage` when a file name is present, and otherwise the
`url || src || hash` fallback applies; for any other post the first
`ipfsImages` entry is resolved via `getImage` when its hash and first file
name are truthy, and the empty string is returned otherwise. -/
def getMediaUrl (env : MediaEnv) (post : Post) : String :=
  if post.media_type = some "VIDEO" ∧ post.video_data.isSome then
    match post.video_data.bind VideoDataVal.first with
    | some vd =>
        match vd.hash with
        | some videoUrl =>
            if !videoUrl.isEmpty
                && (strStartsWith videoUrl "http://"
                    || strStartsWith videoUrl "https://") then
              videoUrl
            else
              match vd.fileNames.bind List.head? with
              | some f =>
                  if !f.isEmpty then getImage env (some videoUrl) f post.author
                  else videoDataFallbackUrl vd
              | none => videoDataFallbackUrl vd
        | none => videoDataFallbackUrl vd
    | none => ""
  else
    match post.ipfsImages.bind List.head? with
    | some image =>
        match image.hash, image.fileNames.bind List.head? with
        | some h, some f =>
            if !h.isEmpty && !f.isEmpty then getImage env (some h) f post.author
            else ""
        | _, _ => ""
    | none => ""

/-- `hasValidImage` from `formattedPhotosForGallery`:
`post.ipfsImages?.[0]?.hash && post.ipfsImages?.[0]?.fileNames?.[0]`. -/
def hasValidImage (post : Post) : Bool :=
  match post.ipfsImages.bind List.head? with
  | some img => optTruthy img.hash && optTruthy (img.fileNames.bind List.head?)
  | none => false

/-- `hasValidVideo` from `formattedPhotosForGallery`:
`post.media_type === 'VIDEO' && post.video_data` (any non-null value,
including an empty array, is truthy). -/
def hasValidVideo (post : Post) : Bool :=
  post.media_type = some "VIDEO" && post.video_data.isSome

/-- JavaScript `Math.round (a / b)` for a positive denominator, computed
exactly on integers: rounds half toward positive infinity. -/
def jsRoundDiv (a b : Int) : Int :=
  Int.fdiv (2 * a + b) (2 * b)

/-- The srcSet breakpoint widths. -/
def breakpoints : List Int := [1080, 640, 384, 256, 128, 96, 64, 48]

/-- The base width choices of the gallery layout. -/
def baseWidths : List Int := [300, 320, 340, 360, 380, 400]

/-- The aspect-ratio sets of the gallery layout, stored as hundredths
(0.45 is stored as 45) so that the height arithmetic stays exact. -/
def aspectRatioSets : List (List Int) :=
  [[45, 50, 55, 60, 65],
   [60, 65, 70, 75, 80],
   [70, 75, 80, 85, 90],
   [85, 90, 95],
   [100, 100],
   [110, 115, 120],
   [125, 130],
   [45, 70, 85, 110, 60]]

/-- The organic height variation multipliers of the gallery layout, stored
as hundredths (1.01 is stored as 101). -/
def organicVariations : List Int :=
  [101, 103, 105, 100, 102, 104, 99, 103, 101, 105, 98, 102,
   104, 101, 105, 97, 102, 100, 104, 99, 105, 102, 98, 103]

/-- One srcSet entry of a gallery photo. -/
structure SrcSetEntry where
  src : String
  width : Int
  height : Int
deriving DecidableEq, Repr

/-- An `ExtendedPhoto` gallery record. -/
structure ExtendedPhoto where
  id : String
  src : String
  key : String
  alt : Option String
  width : Int
  height : Int
  srcSet : List SrcSetEntry
  prompt : Option String
  author : String
  category : Option String
  cpu : Option Nat
  createdAt : Option String
  device : Option String
  isDraft : Option Bool
  isPinned : Option Bool
  isPrivate : Option Bool
  caption : Option String
  seed : Option Nat
  media_type : Option String
deriving DecidableEq, Repr

/-- The per-post body of `formattedPhotosForGallery`: posts with neither a
valid image nor valid video data map to `null`; all others map to a photo
whose dimensions are derived from the post id and its page-local index.
The ratio thresholds and rounds are computed exactly on the hundredths
representation: `baseWidth / aspectRatio` is `100 * baseWidth / ar`,
`aspectRatio < 0.6` is `ar < 60`, `constrained * variation` is
`constrained * v / 100`, and a srcSet height
`breakpoint / (baseWidth / constrainedHeight)` is
`breakpoint * constrainedHeight / baseWidth`. -/
def formatGalleryPost (env : MediaEnv) (post : Post) (index : Nat) : Option ExtendedPhoto :=
  if hasValidImage post = false ∧ hasValidVideo post = false then none
  else
    let mediaUrl := getMediaUrl env post
    let baseWidth := baseWidths.getD (post.id % baseWidths.length) 0
    let ratioSet := (aspectRatioSets.getD ((post.id + index) % aspectRatioSets.length) [])
    let aspectRatio := ratioSet.getD ((post.id * 3 + index) % ratioSet.length) 0
    let calculatedHeight := jsRoundDiv (100 * baseWidth) aspectRatio
    let minHeight : Int :=
      if aspectRatio < 60 then 450
      else if aspectRatio < 80 then 400
      else if aspectRatio > 120 then 300
      else 380
    let maxHeight : Int :=
      if aspectRatio < 60 then 520
      else if aspectRatio < 80 then 480
      else if aspectRatio > 120 then 380
      else 450
    let constrained1 := if calculatedHeight < minHeight then minHeight else calculatedHeight
    let constrained2 := if constrained1 > maxHeight then maxHeight else constrained1
    let variation :=
      organicVariations.getD ((post.id + index * 2) % organicVariations.length) 0
    let finalHeight := jsRoundDiv (constrained2 * variation) 100
    let constrainedHeight := max finalHeight 250
    some
      { id := toString post.id,
        src := mediaUrl,
        key := toString post.id,
        alt := post.prompt,
        width := baseWidth,
        height := constrainedHeight,
        srcSet := breakpoints.map (fun bp =>
          { src := mediaUrl, width := bp,
            height := jsRoundDiv (bp * constrainedHeight) baseWidth }),
        prompt := post.prompt,
        author := post.author,
        category := post.category,
        cpu := post.cpu,
        createdAt := post.createdAt,
        device := post.device,
        isDraft := post.isDraft,
        isPinned := post.isPinned,
        isPrivate := post.isPrivate,
        caption := post.caption,
        seed := post.seed,
        media_type := post.media_type }

/-- `formattedPhotosForGallery`: maps each page's posts (with their page-local
index) through `formatGalleryPost` and filters out the null results. -/
def formattedPhotosForGallery (env : MediaEnv) (pages : List Page) : List ExtendedPhoto :=
  (pages.flatMap (fun page =>
    page.data.enum.map (fun pi => formatGalleryPost env pi.2 pi.1))).reduceOption

/-- A concrete media environment used for evaluating the gallery formatting
on example inputs. -/
def exampleEnv : MediaEnv :=
  { isDevelopment := false, lighthouseGateway := "https://gw/",
    cloudflareUrl := "https://cf", fallbackImageSrc := "/fallback.png",
    isHighQualityImage := fun _ => false }

/-- A concrete post with a valid ipfs image. -/
def examplePost : Post :=
  { id := 1, author := "alice", prompt := some "a red fox in snow",
    media_type := some "IMAGE",
    ipfsImages := some [{ hash := some "cid1", fileNames := some ["f.png"] }],
    video_data := none, category := none, cpu := none, createdAt := none,
    device := none, isDraft := none, isPinned := none, isPrivate := none,
    caption := none, seed := none }

/-- A concrete post with neither a valid image nor video data. -/
def exampleInvalidPost : Post :=
  { id := 2, author := "alice", prompt := some "nothing",
    media_type := some "IMAGE",
    ipfsImages := none,
    video_data := none, category := none, cpu := none, createdAt := none,
    device := none, isDraft := none, isPinned := none, isPrivate := none,
    caption := none, seed := none }

/-- A single page holding the valid example post. -/
def examplePage : Page := { data := [examplePost] }

/-- The gallery photo produced from the valid example post. -/
def examplePhoto : ExtendedPhoto :=
  { id := "1",
    src := "https://gw/cid1/f.png",
    key := "1",
    alt := some "a red fox in snow",
    width := 320,
    height := 440,
    srcSet := [{ src := "https://gw/cid1/f.png", width := 1080, height := 1485 },
               { src := "https://gw/cid1/f.png", width := 640, height := 880 },
               { src := "https://gw/cid1/f.png", width := 384, height := 528 },
               { src := "https://gw/cid1/f.png", width := 256, height := 352 },
               { src := "https://gw/cid1/f.png", width := 128, height := 176 },
               { src := "https://gw/cid1/f.png", width := 96, height := 132 },
               { src := "https://gw/cid1/f.png", width := 64, height := 88 },
               { src := "https://gw/cid1/f.png", width := 48, height := 66 }],
    prompt := some "a red fox in snow",
    author := "alice",
    category := none, cpu := none, createdAt := none, device := none,
    isDraft := none, isPinned := none, isPrivate := none, caption := none,
    seed := none, media_type := some "IMAGE" }

/-- The response sequence of the spec's polling example: two 404s, then a
processing status, then a completed status carrying a video URL. -/
def happyPathResponses : List PollResponse :=
  [.failure 404 "Not Found", .failure 404 "Not Found",
   .success { jobId := "job-1", status := .processing, video := none, error := none },
   .success { jobId := "job-1", status := .completed,
              video := some { s3 := "s3://bucket/video",
                              url := "https://cdn.example/video.mp4" },
              error := none }]

/-! ### Polling loop lemmas -/

/-- Unfolding of one polling step. -/
theorem pollRun_cons (jobId : String) (r : PollResponse) (rs : List PollResponse)
    (s : PollState) :
    pollRun jobId (r :: rs) s = pollRun jobId rs (pollTick jobId r s).1 := rfl

/-- Running the loop over an appended response list composes. -/
theorem pollRun_append (jobId : String) (a b : List PollResponse) (s : PollState) :
    pollRun jobId (a ++ b) s = pollRun jobId b (pollRun jobId a s) := by
  simp [pollRun, List.foldl_append]

/-- When the guard is active (non-empty job id, still polling), a tick runs
`pollVideoStatus` and issues a request. -/
theorem pollTickActive (jobId : String) (r : PollResponse) (s : PollState)
    (hjob : jobId.isEmpty = false) (hp : s.isPolling = true) :
    pollTick jobId r s = (pollVideoStatus r s, true) := by
  simp [pollTick, hjob, hp]

/-- Once polling has stopped, the state never changes again. -/
theorem pollRunFrozen (jobId : String) (resps : List PollResponse) (s : PollState)
    (h : s.isPolling = false) :
    pollRun jobId resps s = s := by
  induction resps with
  | nil => rfl
  | cons r rs ih =>
      rw [pollRun_cons]
      have ht : pollTick jobId r s = (s, false) := by simp [pollTick, h]
      rw [ht]
      exact ih

/-- Once polling has stopped, no status request is ever issued again. -/
theorem pollCountFrozen (jobId : String) (resps : List PollResponse) (s : PollState)
    (h : s.isPolling = false) :
    pollRequestCount jobId resps s = 0 := by
  have aux : ∀ (l : List PollResponse) (n : Nat),
      l.foldl (fun (acc : PollState × Nat) r =>
        let step := pollTick jobId r acc.1
        (step.1, acc.2 + (if step.2 then 1 else 0))) (s, n) = (s, n) := by
    intro l
    induction l with
    | nil => intro n; rfl
    | cons r rs ih =>
        intro n
        have ht : pollTick jobId r s = (s, false) := by simp [pollTick, h]
        simp only [List.foldl_cons, ht]
        exact ih n
  simp [pollRequestCount, aux]

/-- An error response with fewer than 10 retries used only increments the
retry count, whatever its status code. -/
theorem pollVideoStatusErrorInc (st : Nat) (txt : String) (s : PollState)
    (h : s.retryCount < 10) :
    pollVideoStatus (.failure st txt) s = { s with retryCount := s.retryCount + 1 } := by
  unfold pollVideoStatus
  by_cases h404 : st = 404
  · simp [h404, h]
  · by_cases h5 : s.retryCount < 5
    · simp [h404, h5]
    · have h10 : ¬ (10 ≤ s.retryCount) := by omega
      simp [h404, h5, h10]

/-- An error response arriving with the retry count already at 10 sets a
terminal error and stops polling, whatever its status code. -/
theorem pollVideoStatusErrorTerminal (st : Nat) (txt : String) (s : PollState)
    (h : 10 ≤ s.retryCount) :
    (pollVideoStatus (.failure st txt) s).isPolling = false
    ∧ (pollVideoStatus (.failure st txt) s).error =
        some ("Status check failed after " ++ toString s.retryCount
          ++ " retries: " ++ txt) := by
  unfold pollVideoStatus
  have hlt : ¬ s.retryCount < 10 := by omega
  have h5 : ¬ s.retryCount < 5 := by omega
  simp [hlt, h5, h]

/-- Running the loop over a list of error responses that fits in the retry
budget just accumulates the retry count. -/
theorem pollRunErrorsAux (jobId : String) (resps : List PollResponse) (s : PollState)
    (hjob : jobId.isEmpty = false) (hp : s.isPolling = true)
    (herr : ∀ r ∈ resps, r.isError = true)
    (hb : s.retryCount + resps.length ≤ 10) :
    pollRun jobId resps s = { s with retryCount := s.retryCount + resps.length } := by
  induction resps generalizing s with
  | nil => simp [pollRun]
  | cons r rs ih =>
      rw [pollRun_cons, pollTickActive jobId r s hjob hp]
      have hr : r.isError = true := herr r (List.mem_cons_self r rs)
      cases r with
      | success d => simp [PollResponse.isError] at hr
      | failure st txt =>
          have hlt : s.retryCount < 10 := by
            simp [List.length_cons] at hb
            omega
          rw [pollVideoStatusErrorInc st txt s hlt]
          have step := ih { s with retryCount := s.retryCount + 1 } hp
            (fun x hx => herr x (List.mem_cons_of_mem _ hx))
            (by simp [List.length_cons] at hb ⊢; omega)
          rw [step]
          congr 1
          simp [List.length_cons]
          omega

/-- C1 claim text for reference: after 10 consecutive 404s or 5 consecutive
non-404 errors, polling stops with an error. The code instead keeps polling
in both situations; this closed computation refutes the claim as stated. -/
theorem pollRetryBudgetCounterexample :
    ((pollRun "job-1" (List.replicate 10 (PollResponse.failure 404 "Not Found"))
        initPollState).isPolling = true
      ∧ (pollRun "job-1" (List.replicate 10 (PollResponse.failure 404 "Not Found"))
        initPollState).error = none)
    ∧ ((pollRun "job-1" (List.replicate 5 (PollResponse.failure 500 "Server Error"))
        initPollState).isPolling = true
      ∧ (pollRun "job-1" (List.replicate 5 (PollResponse.failure 500 "Server Error"))
        initPollState).error = none) :=
  ⟨⟨rfl, rfl⟩, ⟨rfl, rfl⟩⟩

/-- C1 (amended): starting from a zero retry count, the polling loop keeps
polling through any run of at most 10 consecutive error responses (404 or
otherwise, only the retry count grows), and stops with a terminal error on
the 11th consecutive error response. -/
theorem pollRetryBudget (jobId : String) (resps : List PollResponse)
    (hjob : jobId.isEmpty = false)
    (herr : ∀ r ∈ resps, r.isError = true) :
    (resps.length ≤ 10 →
      pollRun jobId resps initPollState =
        { initPollState with retryCount := resps.length })
    ∧ (resps.length = 11 →
      (pollRun jobId resps initPollState).isPolling = false
      ∧ (pollRun jobId resps initPollState).error.isSome = true) := by
  constructor
  · intro hlen
    have := pollRunErrorsAux jobId resps initPollState hjob rfl herr
      (by simp [initPollState]; omega)
    simpa [initPollState] using this
  · intro hlen
    have hta : ∀ r ∈ resps.take 10, r.isError = true :=
      fun r hr => herr r (List.mem_of_mem_take hr)
    have hlen10 : (resps.take 10).length = 10 := by
      rw [List.length_take]; omega
    have hlend : (resps.drop 10).length = 1 := by
      rw [List.length_drop]; omega
    obtain ⟨r, hr⟩ := List.length_eq_one.mp hlend
    have hrerr : r.isError = true := by
      have hmem : r ∈ resps.drop 10 := by simp [hr]
      exact herr r (List.mem_of_mem_drop hmem)
    obtain ⟨st, txt, rfl⟩ : ∃ st txt, r = .failure st txt := by
      cases r with
      | failure st txt => exact ⟨st, txt, rfl⟩
      | success d => simp [PollResponse.isError] at hrerr
    have h10 : pollRun jobId (resps.take 10) initPollState =
        { initPollState with retryCount := 10 } := by
      have := pollRunErrorsAux jobId (resps.take 10) initPollState hjob rfl hta
        (by simp [initPollState, hlen10])
      rw [hlen10] at this
      simpa [initPollState] using this
    have hfinal : pollRun jobId resps initPollState =
        pollVideoStatus (.failure st txt) { initPollState with retryCount := 10 } := by
      conv_lhs => rw [← List.take_append_drop 10 resps]
      rw [pollRun_append, h10, hr, pollRun_cons,
        pollTickActive jobId _ _ hjob rfl]
      rfl
    rw [hfinal]
    have hterm := pollVideoStatusErrorTerminal st txt
      { initPollState with retryCount := 10 } (by simp)
    exact ⟨hterm.1, by rw [hterm.2]; rfl⟩

/-- C1 witness: eleven consecutive 500 responses stop the loop with an error. -/
theorem pollRetryBudgetWitness :
    (pollRun "job-1" (List.replicate 11 (PollResponse.failure 500 "Server Error"))
        initPollState).isPolling = false
    ∧ (pollRun "job-1" (List.replicate 11 (PollResponse.failure 500 "Server Error"))
        initPollState).error.isSome = true :=
  (pollRetryBudget "job-1" (List.replicate 11 (PollResponse.failure 500 "Server Error"))
    rfl (by decide)).2 (by decide)

/-- C2: on the response sequence 404, 404, processing, completed with a URL,
the poller ends in the ready (not-polling) state with no error, onVideoReady
has fired exactly once with that URL, the completed video URL has been
persisted onto the post row, and the retry count was reset to zero by the
first successful response (and stood at 2 just before it). -/
theorem pollHappyPath :
    (pollRun "job-1" happyPathResponses initPollState).isPolling = false
    ∧ (pollRun "job-1" happyPathResponses initPollState).readyCalls
        = ["https://cdn.example/video.mp4"]
    ∧ (pollRun "job-1" happyPathResponses initPollState).postVideoData
        = some [{ hash := "https://cdn.example/video.mp4",
                  url := "https://cdn.example/video.mp4", s3 := "s3://bucket/video" }]
    ∧ (pollRun "job-1" happyPathResponses initPollState).error = none
    ∧ (pollRun "job-1" (happyPathResponses.take 2) initPollState).retryCount = 2
    ∧ (pollRun "job-1" (happyPathResponses.take 3) initPollState).retryCount = 0 :=
  ⟨rfl, rfl, rfl, rfl, rfl, rfl⟩

/-- C9: once a polling step has cleared isPolling (as the completed, failed
and error-exhausted outcomes do), the poller is terminal: for every
subsequent response sequence the state never changes again and no further
status request is issued. -/
theorem pollTerminalStates (jobId : String) (r : PollResponse) (s : PollState)
    (resps : List PollResponse)
    (h : (pollVideoStatus r s).isPolling = false) :
    pollRun jobId resps (pollVideoStatus r s) = pollVideoStatus r s
    ∧ pollRequestCount jobId resps (pollVideoStatus r s) = 0 :=
  ⟨pollRunFrozen jobId resps _ h, pollCountFrozen jobId resps _ h⟩

/-- C9 witness: after a failed status is observed, a further error response
changes nothing and no request is issued. -/
theorem pollTerminalStatesWitness :
    pollRun "job-1" [PollResponse.failure 500 "Server Error"]
        (pollVideoStatus (PollResponse.success
          { jobId := "job-1", status := .failed, video := none, error := none })
          initPollState)
      = pollVideoStatus (PollResponse.success
          { jobId := "job-1", status := .failed, video := none, error := none })
          initPollState
    ∧ pollRequestCount "job-1" [PollResponse.failure 500 "Server Error"]
        (pollVideoStatus (PollResponse.success
          { jobId := "job-1", status := .failed, video := none, error := none })
          initPollState) = 0 :=
  pollTerminalStates "job-1"
    (PollResponse.success
      { jobId := "job-1", status := .failed, video := none, error := none })
    initPollState [PollResponse.failure 500 "Server Error"] rfl

/-- C10: startGeneration activates the store and records its media-type
argument (defaulting to image when none is given), and stopGeneration clears
the flag while leaving the media type unchanged, from every store state. -/
theorem generationStoreTransitions (s : GenerationState) (mt : Option MediaType) :
    (startGeneration mt s).isActive = true
    ∧ (startGeneration mt s).mediaType = mt.getD .image
    ∧ (stopGeneration s).isActive = false
    ∧ (stopGeneration s).mediaType = s.mediaType :=
  ⟨rfl, rfl, rfl, rfl⟩

/-- A string whose trimmed length is non-zero is itself non-empty. -/
theorem isEmpty_false_of_trim_length_ne_zero (s : String) (h : (jsTrim s).length ≠ 0) :
    s.isEmpty = false := by
  by_cases he : s.isEmpty
  · exfalso
    have hs : s = "" := by simpa [String.isEmpty_iff] using he
    subst hs
    exact h rfl
  · simpa using he

/-- C3: every call with an empty or whitespace-only prompt, a prompt longer
than 1000 characters, or no authenticated user (user null or user id missing)
is rejected before any network request, with a user-facing toast and with
stopGeneration called. -/
theorem submitRejection (prompt : String) (user : Option ExtendedUser)
    (seed : Int) (imageCount : Int) (mediaType : MediaType)
    (h : (jsTrim prompt).length = 0 ∨ 1000 < prompt.length ∨ user = none
         ∨ ∃ u, user = some u ∧ u.id = "") :
    (sendJobRequestStart prompt user seed imageCount mediaType).networkCalled = false
    ∧ (sendJobRequestStart prompt user seed imageCount mediaType).stopped = true
    ∧ (sendJobRequestStart prompt user seed imageCount mediaType).toast.isSome = true := by
  cases user with
  | none => simp [sendJobRequestStart]
  | some u =>
      by_cases hid : u.id.isEmpty
      · simp [sendJobRequestStart, hid]
      · by_cases hempty : prompt.isEmpty ∨ (jsTrim prompt).length = 0
        · simp [sendJobRequestStart, hid, hempty]
        · by_cases hlong : prompt.length > 1000
          · simp [sendJobRequestStart, hid, hempty, hlong]
          · exfalso
            rcases h with h1 | h2 | h3 | ⟨u2, hu2, hid2⟩
            · exact hempty (Or.inr h1)
            · exact hlong h2
            · simp at h3
            · injection hu2 with hu
              subst hu
              exact hid (by rw [hid2]; rfl)

/-- C3 witness: a whitespace-only prompt from a logged-in user is rejected
with a toast and a cleared in-flight flag, and no network request. -/
theorem submitRejectionWitness :
    (sendJobRequestStart "   " (some { id := "user-1", creditBalance := 5, wallet := none })
        42 4 MediaType.image).networkCalled = false
    ∧ (sendJobRequestStart "   " (some { id := "user-1", creditBalance := 5, wallet := none })
        42 4 MediaType.image).stopped = true
    ∧ (sendJobRequestStart "   " (some { id := "user-1", creditBalance := 5, wallet := none })
        42 4 MediaType.image).toast.isSome = true :=
  submitRejection "   " (some { id := "user-1", creditBalance := 5, wallet := none })
    42 4 MediaType.image (Or.inl (by decide))

/-- C4: every accepted submission sends a payload with the trimmed prompt,
the drawn seed, the author id and the fixed GENERATION category, whose output
count is 1 for videos regardless of the requested image count and the image
count clamped into 1..10 otherwise. -/
theorem submitAcceptedPayload (prompt : String) (u : ExtendedUser)
    (seed : Int) (imageCount : Int) (mediaType : MediaType)
    (hid : u.id.isEmpty = false)
    (hprompt : (jsTrim prompt).length ≠ 0)
    (hlen : prompt.length ≤ 1000) :
    (sendJobRequestStart prompt (some u) seed imageCount mediaType).networkCalled = true
    ∧ (sendJobRequestStart prompt (some u) seed imageCount mediaType).payload
        = some { inputs := { Prompt := jsTrim prompt, Seed := seed,
                             n := if mediaType = .video then 1
                                  else min (max imageCount 1) 10 },
                 author := u.id, category := "GENERATION" }
    ∧ (mediaType = .video →
        (sendJobRequestStart prompt (some u) seed imageCount mediaType).payload
          = some { inputs := { Prompt := jsTrim prompt, Seed := seed, n := 1 },
                   author := u.id, category := "GENERATION" })
    ∧ 1 ≤ min (max imageCount 1) 10 ∧ min (max imageCount 1) 10 ≤ 10 := by
  have hne : prompt.isEmpty = false := isEmpty_false_of_trim_length_ne_zero prompt hprompt
  have hnlong : ¬ prompt.length > 1000 := by omega
  refine ⟨?_, ?_, ?_, ?_, ?_⟩
  · simp [sendJobRequestStart, hid, hne, hprompt, hnlong]
  · simp [sendJobRequestStart, hid, hne, hprompt, hnlong, buildRequestPayload]
  · intro hv
    simp [sendJobRequestStart, hid, hne, hprompt, hnlong, buildRequestPayload, hv]
  · exact le_min (le_max_right _ _) (by norm_num)
  · exact min_le_right _ _

/-- C4 witness: the spec's example scenario — the prompt "a red fox in snow"
with the default image count 4 yields n = 4 for images, and n = 1 for
videos. -/
theorem submitAcceptedPayloadWitness :
    ((sendJobRequestStart "a red fox in snow"
        (some { id := "user-1", creditBalance := 5, wallet := none })
        1234 4 MediaType.image).payload.map (fun p => p.inputs.n) = some 4)
    ∧ ((sendJobRequestStart "a red fox in snow"
        (some { id := "user-1", creditBalance := 5, wallet := none })
        1234 4 MediaType.video).payload.map (fun p => p.inputs.n) = some 1) := by
  have h1 := (submitAcceptedPayload "a red fox in snow"
    { id := "user-1", creditBalance := 5, wallet := none }
    1234 4 MediaType.image rfl (by decide) (by decide)).2.1
  have h2 := (submitAcceptedPayload "a red fox in snow"
    { id := "user-1", creditBalance := 5, wallet := none }
    1234 4 MediaType.video rfl (by decide) (by decide)).2.2.1 rfl
  rw [h1, h2]
  exact ⟨rfl, rfl⟩

/-- C5 counterexample: a 502 response is a 5xx status, but the code maps only
status 500 to the server-error message; 502 falls through to the error's own
message. -/
theorem submitFailureMessageCounterexample :
    (videoCatchHandler MediaType.video
        { isAxiosError := true, code := none, responseStatus := some 502,
          responseMessage := none,
          message := "Request failed with status code 502" }).toast
      = "Request failed with status code 502"
    ∧ ¬ (videoCatchHandler MediaType.video
        { isAxiosError := true, code := none, responseStatus := some 502,
          responseMessage := none,
          message := "Request failed with status code 502" }).toast
      = "Server error - please try again" := by
  constructor
  · rfl
  · decide

/-- C5 (amended): on video submission failure the catch block clears the
in-flight flag and rethrows, and maps a timeout (ECONNABORTED) to the
try-again message, 401 to the auth message, 400 to the server-provided or
default validation message, and exactly 500 to the server-error message;
any other status falls through to the response's message or the error's own
message. -/
theorem submitFailureMapping (e : AxiosErrorInfo) (he : e.isAxiosError = true) :
    (videoCatchHandler MediaType.video e).stopped = true
    ∧ (videoCatchHandler MediaType.video e).rethrown = true
    ∧ (e.code = some "ECONNABORTED" →
        (videoCatchHandler MediaType.video e).toast = "Request timeout - please try again")
    ∧ (e.code ≠ some "ECONNABORTED" → e.responseStatus = some 401 →
        (videoCatchHandler MediaType.video e).toast = "Please log in to generate videos")
    ∧ (e.code ≠ some "ECONNABORTED" → e.responseStatus = some 400 →
        (videoCatchHandler MediaType.video e).toast = jsOrStr e.responseMessage "Invalid request")
    ∧ (e.code ≠ some "ECONNABORTED" → e.responseStatus = some 500 →
        (videoCatchHandler MediaType.video e).toast = "Server error - please try again")
    ∧ (e.code ≠ some "ECONNABORTED" → e.responseStatus ≠ some 401 →
        e.responseStatus ≠ some 400 → e.responseStatus ≠ some 500 →
        (videoCatchHandler MediaType.video e).toast = jsOrStr e.responseMessage e.message) := by
  refine ⟨rfl, rfl, ?_, ?_, ?_, ?_, ?_⟩
  · intro hc
    simp [videoCatchHandler, submitFailureMessage, he, hc]
  · intro hc h401
    simp [videoCatchHandler, submitFailureMessage, he, hc, h401, MediaType.name]
  · intro hc h400
    simp [videoCatchHandler, submitFailureMessage, he, hc, h400]
  · intro hc h500
    simp [videoCatchHandler, submitFailureMessage, he, hc, h500]
  · intro hc h401 h400 h500
    simp [videoCatchHandler, submitFailureMessage, he, hc, h401, h400, h500]

/-- C5 witness: a plain 500 failure is stopped, rethrown, and toasted with
the server-error message. -/
theorem submitFailureMappingWitness :
    (videoCatchHandler MediaType.video
        { isAxiosError := true, code := none, responseStatus := some 500,
          responseMessage := none, message := "Internal Server Error" }).stopped = true
    ∧ (videoCatchHandler MediaType.video
        { isAxiosError := true, code := none, responseStatus := some 500,
          responseMessage := none, message := "Internal Server Error" }).rethrown = true
    ∧ (videoCatchHandler MediaType.video
        { isAxiosError := true, code := none, responseStatus := some 500,
          responseMessage := none, message := "Internal Server Error" }).toast
      = "Server error - please try again" := by
  have h := submitFailureMapping
    { isAxiosError := true, code := none, responseStatus := some 500,
      responseMessage := none, message := "Internal Server Error" } rfl
  exact ⟨h.1, h.2.1, h.2.2.2.2.2.1 (by decide) rfl⟩

/-- C6: a video-generation response with a truthy status and a truthy jobId
returns that jobId and the postId to the caller from the submission response
alone; a response lacking either raises the invalid-response error. -/
theorem videoResponseHandling (body : VideoApiBody) :
    (∀ d j, body.data = some d → d.jobId = some j → body.status = true →
        j.isEmpty = false → handleVideoResponse body = .success j d.postId)
    ∧ ((body.status = false ∨ body.data = none
          ∨ (∃ d, body.data = some d ∧ (d.jobId = none ∨ d.jobId = some ""))) →
        handleVideoResponse body = .error "Invalid response from video generation API") := by
  constructor
  · intro d j hd hj hs hne
    simp [handleVideoResponse, hd, hj, hs, hne]
  · intro h
    rcases hdata : body.data with _ | d
    · simp [handleVideoResponse, hdata]
    · rcases hjob : d.jobId with _ | j
      · simp [handleVideoResponse, hdata, hjob]
      · rcases h with hs | hnone | ⟨d2, hd2, hj2⟩
        · simp [handleVideoResponse, hdata, hjob, hs]
        · rw [hdata] at hnone; cases hnone
        · rw [hdata] at hd2
          injection hd2 with hd2
          subst hd2
          rcases hj2 with hj2 | hj2
          · rw [hjob] at hj2; cases hj2
          · rw [hjob] at hj2
            injection hj2 with hj2
            subst hj2
            have hemp : ("" : String).isEmpty = true := rfl
            simp [handleVideoResponse, hdata, hjob, hemp]

/-- C6 witness: a truthy response returns its jobId and postId; a response
with status false raises the invalid-response error. -/
theorem videoResponseHandlingWitness :
    handleVideoResponse
        { status := true, data := some { jobId := some "job-9", postId := some 7 } }
      = .success "job-9" (some 7)
    ∧ handleVideoResponse
        { status := false, data := some { jobId := some "job-9", postId := some 7 } }
      = .error "Invalid response from video generation API" :=
  ⟨(videoResponseHandling
      { status := true, data := some { jobId := some "job-9", postId := some 7 } }).1
      { jobId := some "job-9", postId := some 7 } "job-9" rfl rfl rfl rfl,
   (videoResponseHandling
      { status := false, data := some { jobId := some "job-9", postId := some 7 } }).2
      (Or.inl rfl)⟩

/-- C7: the image-path success callback never clears the in-flight flag; the
flag is cleared by the row-polling loop exactly when a tick sees a post id
different from the last observed one, and that same tick invalidates the
cached post listing and navigates to the new record. -/
theorem imageInFlightClearing (body : ImageApiBody) (last fetched : Option Int) :
    (imageSuccessHandler body).stopped = false
    ∧ ((rowPollTick last fetched).stopped = true
        ↔ ∃ i, fetched = some i ∧ some i ≠ last)
    ∧ (∀ i, fetched = some i → some i ≠ last →
        (rowPollTick last fetched).invalidatedPosts = true
        ∧ (rowPollTick last fetched).navigateTo = some i) := by
  refine ⟨rfl, ?_, ?_⟩
  · constructor
    · intro hstop
      cases fetched with
      | none => simp [rowPollTick] at hstop
      | some i =>
          by_cases hne : (some i ≠ last : Prop)
          · exact ⟨i, rfl, hne⟩
          · simp [rowPollTick, hne] at hstop
    · rintro ⟨i, rfl, hne⟩
      simp [rowPollTick, hne]
  · rintro i rfl hne
    refine ⟨?_, ?_⟩ <;> simp [rowPollTick, hne]

/-- C7 witness: a successful image response leaves the flag set, and a poll
tick seeing post id 6 after last id 5 clears it, invalidates and navigates. -/
theorem imageInFlightClearingWitness :
    (imageSuccessHandler { status := true, data := none }).stopped = false
    ∧ (rowPollTick (some 5) (some 6)).stopped = true
    ∧ (rowPollTick (some 5) (some 6)).invalidatedPosts = true
    ∧ (rowPollTick (some 5) (some 6)).navigateTo = some 6 := by
  have h := imageInFlightClearing { status := true, data := none } (some 5) (some 6)
  have hne : (some (6 : Int) ≠ some 5 : Prop) := by decide
  have h2 := h.2.2 6 rfl hne
  exact ⟨h.1, h.2.1.mpr ⟨6, rfl, hne⟩, h2.1, h2.2⟩

/-- A post formatted into a gallery photo is displayable: it has a valid
image or valid video data, and the photo carries its id. -/
theorem formatGalleryPost_eq_some (env : MediaEnv) (post : Post) (index : Nat)
    (photo : ExtendedPhoto) (h : formatGalleryPost env post index = some photo) :
    (hasValidImage post = true ∨ hasValidVideo post = true)
    ∧ photo.id = toString post.id := by
  by_cases hval : hasValidImage post = false ∧ hasValidVideo post = false
  · simp [formatGalleryPost, hval] at h
  · constructor
    · rcases Bool.eq_false_or_eq_true (hasValidImage post) with h1 | h1
      · exact Or.inl h1
      · rcases Bool.eq_false_or_eq_true (hasValidVideo post) with h2 | h2
        · exact Or.inr h2
        · exact absurd ⟨h1, h2⟩ hval
    · unfold formatGalleryPost at h
      rw [if_neg hval] at h
      simp only [Option.some.injEq] at h
      rw [← h]

/-- A valid image requires a non-null ipfsImages array, and valid video data
requires a non-null video_data value. -/
theorem validMedia_nonNull (post : Post) :
    (hasValidImage post = true → post.ipfsImages ≠ none)
    ∧ (hasValidVideo post = true → post.video_data ≠ none) := by
  constructor
  · intro h hnull
    rw [hasValidImage, hnull] at h
    simp [Option.bind] at h
  · intro h hnull
    rw [hasValidVideo, hnull] at h
    simp at h

/-- C8: every photo produced by formattedPhotosForGallery originates from a
post of the input pages that has a valid image or valid video data — hence
non-null ipfsImages or non-null video_data — and posts with neither are
mapped to null and excluded. -/
theorem galleryDisplayableInvariant (env : MediaEnv) (pages : List Page) :
    (∀ photo ∈ formattedPhotosForGallery env pages,
      ∃ page ∈ pages, ∃ post ∈ page.data,
        (hasValidImage post = true ∨ hasValidVideo post = true)
        ∧ (post.ipfsImages ≠ none ∨ post.video_data ≠ none)
        ∧ photo.id = toString post.id)
    ∧ (∀ (post : Post) (index : Nat),
        hasValidImage post = false → hasValidVideo post = false →
        formatGalleryPost env post index = none) := by
  constructor
  · intro photo hmem
    rw [formattedPhotosForGallery, List.reduceOption_mem_iff, List.mem_flatMap] at hmem
    obtain ⟨page, hpage, hmem2⟩ := hmem
    rw [List.mem_map] at hmem2
    obtain ⟨pi, hpi, hfmt⟩ := hmem2
    have hpost : pi.2 ∈ page.data := by
      have := List.mem_enum_iff_getElem?.mp hpi
      exact List.getElem?_mem this
    have hinfo := formatGalleryPost_eq_some env pi.2 pi.1 photo hfmt
    refine ⟨page, hpage, pi.2, hpost, hinfo.1, ?_, hinfo.2⟩
    rcases hinfo.1 with h1 | h1
    · exact Or.inl ((validMedia_nonNull pi.2).1 h1)
    · exact Or.inr ((validMedia_nonNull pi.2).2 h1)
  · intro post index h1 h2
    simp [formatGalleryPost, h1, h2]

/-- C8 witness: the example photo produced from the valid example post traces
back to that post, which is displayable; the invalid example post is mapped
to null. -/
theorem galleryDisplayableInvariantWitness :
    (∃ page ∈ [examplePage], ∃ post ∈ page.data,
        (hasValidImage post = true ∨ hasValidVideo post = true)
        ∧ (post.ipfsImages ≠ none ∨ post.video_data ≠ none)
        ∧ examplePhoto.id = toString post.id)
    ∧ formatGalleryPost exampleEnv exampleInvalidPost 0 = none :=
  ⟨(galleryDisplayableInvariant exampleEnv [examplePage]).1 examplePhoto (by decide),
   (galleryDisplayableInvariant exampleEnv [examplePage]).2 exampleInvalidPost 0 rfl rfl⟩

end Art
